import Mathlib

/-!
# unica-erp-auth: credential and token lifecycle

Shallow embedding of the request handlers of `src/index.js` (the inline routes)
and `src/controllers/authController.js` (the delegated controller; the two
copies have the same bodies, statement for statement).

* The record store (Supabase/PostgREST), `bcryptjs` and `jsonwebtoken` are
  external collaborators.  The store is an in-memory table set with the
  PostgREST result shape `{ data, error }`; a per-request schedule
  `flt : Nat → Option JsError` says which round-trip (0-based, in program order)
  reports an error instead of answering.  The two libraries are the fields of
  `Env`; each call may return or throw.
* A handler is a function from the request (body fields, clock, salt entropy)
  and the store to an `Outcome`: the response sent, the store afterwards and the
  list of store round-trips performed, in order.
* A body field is a `String`; the empty string stands for every falsy value
  (absent, `null`, `''`), which the handlers do not tell apart.
-/

namespace UnicaAuth

/-! ## Data model -/

/-- An error object: the `error` of a store result, or a thrown exception.
Only `code` and `message` are read by the handlers. -/
structure JsError where
  code : String
  message : String
deriving DecidableEq, Repr

/-- Row of table `users`. -/
structure User where
  id : Nat
  email : String
  password : String
  fullname : String
  created_at : Nat
deriving DecidableEq, Repr

/-- Row of table `refresh_tokens`. -/
structure RefreshTokenRow where
  token : String
  user_id : Nat
  user_email : String
deriving DecidableEq, Repr

/-- Row of table `password_reset_tokens`. -/
structure ResetTokenRow where
  email : String
  token : String
deriving DecidableEq, Repr

/-- Row of table `two_factor_auth`. -/
structure TwoFactorRow where
  user_id : Nat
deriving DecidableEq, Repr

/-- The four tables the handlers touch. -/
structure Store where
  users : List User
  refresh_tokens : List RefreshTokenRow
  password_reset_tokens : List ResetTokenRow
  two_factor_auth : List TwoFactorRow
deriving DecidableEq, Repr

/-- The claims a token carries as far as the handlers read them: `id` and
`email`, either of which may be missing (a reset token has no `id`). -/
structure Payload where
  id : Option Nat
  email : Option String
deriving DecidableEq, Repr

/-- The process environment and the two libraries.
`hash data rounds entropy` is `bcrypt.hash(data, rounds)`, `entropy` being the
salt randomness drawn by that call; `compare data encrypted` is
`bcrypt.compare`; `sign payload secret expiresIn clock` is `jwt.sign` with
`expiresIn` in seconds; `verify token secret clock` is `jwt.verify`.
`Except.error` is a thrown exception. -/
structure Env where
  JWT_SECRET : String
  hash : String → Nat → Nat → Except JsError String
  compare : String → String → Except JsError Bool
  sign : Payload → String → Nat → Nat → Except JsError String
  verify : String → String → Nat → Except JsError Payload

/-- JSON bodies the handlers send, one constructor per shape. -/
inductive Body where
  /-- The body `{ error }`. -/
  | error (msg : String)
  /-- The body `{ message, user: { id, email, fullname }, token }`. -/
  | userToken (message : String) (id : Nat) (email fullname token : String)
  /-- The body `{ message }`. -/
  | message (msg : String)
  /-- The body `{ token }`. -/
  | token (t : String)
  /-- The body `{ message, resetToken }`. -/
  | reset (message resetToken : String)
  /-- The body `{ valid }`. -/
  | valid (b : Bool)
  /-- The row projection `id, email, fullname, created_at`. -/
  | profile (id : Nat) (email fullname : String) (created_at : Nat)
  /-- The body `{ enabled }`. -/
  | enabled (b : Bool)
  /-- The plain-text body of `res.sendStatus`. -/
  | text (s : String)
  /-- The body `null`. -/
  | null
deriving DecidableEq, Repr

/-- An HTTP response: status code and body. -/
structure Response where
  status : Nat
  body : Body
deriving DecidableEq, Repr

/-- A store round-trip, as issued by a handler. -/
inductive DbCall where
  | selectUserByEmail (email : String)
  | insertUser (email password fullname : String) (created_at : Nat)
  | selectRefreshToken (token : String)
  | insertResetToken (email token : String)
  | updateUserPassword (email password : String)
  | deleteResetToken (token : String)
  | selectUserById (id : Option Nat)
  | selectTwoFactor (user_id : Option Nat)
deriving DecidableEq, Repr

/-- What one request does: the response, the store afterwards, and the store
round-trips performed, in order. -/
structure Outcome where
  response : Response
  db : Store
  calls : List DbCall
deriving DecidableEq, Repr

/-- A store result `{ data, error }`. -/
structure DbResult (α : Type) where
  data : Option α
  error : Option JsError

/-! ## The record store -/

/-- PostgREST code for "the result contains 0 (or several) rows" under `.single()`. -/
def PGRST116 : String := "PGRST116"

/-- The error `.single()` reports when the filter does not select exactly one row. -/
def notSingle : JsError :=
  ⟨PGRST116, "JSON object requested, multiple (or no) rows returned"⟩

/-- The query `.select(..).eq(col, v).single()`: the one row selected by `p`, or
an error (the scheduled one, or `PGRST116` when not exactly one row matches). -/
def selectSingle {α : Type} (f : Option JsError) (rows : List α) (p : α → Bool) :
    DbResult α :=
  match f with
  | some e => ⟨none, some e⟩
  | none =>
    match rows.filter p with
    | [r] => ⟨some r, none⟩
    | _ => ⟨none, some notSingle⟩

/-- A fresh primary key: one more than the largest in the table. -/
def freshId (users : List User) : Nat :=
  (users.map (fun u => u.id)).foldr max 0 + 1

/-- The query `.from('users').insert([row]).select().single()`: the table
assigns the id and the inserted row is returned; a failing insert stores nothing. -/
def insertUser (f : Option JsError) (db : Store)
    (email password fullname : String) (created_at : Nat) : DbResult User × Store :=
  match f with
  | some e => (⟨none, some e⟩, db)
  | none =>
    let row : User := ⟨freshId db.users, email, password, fullname, created_at⟩
    (⟨some row, none⟩, { db with users := db.users ++ [row] })

/-- The query `.from('password_reset_tokens').insert([{ email, token }])`. -/
def insertResetToken (f : Option JsError) (db : Store) (email token : String) :
    Option JsError × Store :=
  match f with
  | some e => (some e, db)
  | none =>
    let rows := db.password_reset_tokens ++ [⟨email, token⟩]
    (none, { db with password_reset_tokens := rows })

/-- The effect of `.update({ password }).eq('email', email)` on one row. -/
def setPassword (email password : String) (u : User) : User :=
  if u.email = email then { u with password := password } else u

/-- The query `.from('users').update({ password }).eq('email', email)`: every
row with that email gets the new password; no matching row is not an error. -/
def updateUserPassword (f : Option JsError) (db : Store) (email password : String) :
    Option JsError × Store :=
  match f with
  | some e => (some e, db)
  | none =>
    let users := db.users.map (setPassword email password)
    (none, { db with users := users })

/-- The query `.from('password_reset_tokens').delete().eq('token', token)`. -/
def deleteResetToken (f : Option JsError) (db : Store) (token : String) :
    Option JsError × Store :=
  match f with
  | some e => (some e, db)
  | none =>
    let rows := db.password_reset_tokens.filter (fun r => !(r.token == token))
    (none, { db with password_reset_tokens := rows })

/-! ## Handlers -/

/-- The `catch (error)` block every handler ends with:
`res.status(500).json({ error: error.message })`. -/
def caught (e : JsError) (db : Store) (calls : List DbCall) : Outcome :=
  ⟨⟨500, .error e.message⟩, db, calls⟩

/-- The `TypeError` of reading a property of `null`. -/
def nullRead (field : String) : JsError :=
  ⟨"", "Cannot read properties of null (reading \x27" ++ field ++ "\x27)"⟩

/-- Handler `register` (`POST /auth/register`). Round-trip 0 is the lookup by
email, round-trip 1 the insert. -/
def register (env : Env) (now salt : Nat) (flt : Nat → Option JsError) (db : Store)
    (email password fullname : String) : Outcome :=
  if email = "" ∨ password = "" ∨ fullname = "" then
    ⟨⟨400, .error "Email, senha e nome são obrigatórios"⟩, db, []⟩
  else
    match (selectSingle (flt 0) db.users (fun u => u.email == email)).data with
    | some _ => ⟨⟨409, .error "Usuário já existe"⟩, db, [.selectUserByEmail email]⟩
    | none =>
      match env.hash password 10 salt with
      | .error e => caught e db [.selectUserByEmail email]
      | .ok hashedPassword =>
        let r := insertUser (flt 1) db email hashedPassword fullname now
        let calls := [DbCall.selectUserByEmail email,
                      DbCall.insertUser email hashedPassword fullname now]
        match r.1.error with
        | some e => caught e r.2 calls
        | none =>
          match r.1.data with
          | none => caught (nullRead "id") r.2 calls
          | some newUser =>
            match env.sign ⟨some newUser.id, some newUser.email⟩ env.JWT_SECRET 86400 now with
            | .error e => caught e r.2 calls
            | .ok token =>
              ⟨⟨201, .userToken "Usuário registrado com sucesso"
                  newUser.id newUser.email newUser.fullname token⟩, r.2, calls⟩

/-- Handler `login` (`POST /auth/login`). Round-trip 0 is the lookup by email. -/
def login (env : Env) (now : Nat) (flt : Nat → Option JsError) (db : Store)
    (email password : String) : Outcome :=
  if email = "" ∨ password = "" then
    ⟨⟨400, .error "Email e senha são obrigatórios"⟩, db, []⟩
  else
    let r := selectSingle (flt 0) db.users (fun u => u.email == email)
    let calls := [DbCall.selectUserByEmail email]
    match r.error, r.data with
    | none, some user =>
      match env.compare password user.password with
      | .error e => caught e db calls
      | .ok false => ⟨⟨401, .error "Email ou senha inválidos"⟩, db, calls⟩
      | .ok true =>
        match env.sign ⟨some user.id, some user.email⟩ env.JWT_SECRET 86400 now with
        | .error e => caught e db calls
        | .ok token =>
          ⟨⟨200, .userToken "Login realizado com sucesso"
              user.id user.email user.fullname token⟩, db, calls⟩
    | _, _ => ⟨⟨401, .error "Email ou senha inválidos"⟩, db, calls⟩

/-- Handler `logout` (`POST /auth/logout`, behind `authenticateToken`). -/
def logout (db : Store) : Outcome :=
  ⟨⟨200, .message "Logout realizado com sucesso"⟩, db, []⟩

/-- Handler `refreshToken` (`POST /auth/refresh-token`). Round-trip 0 is the
lookup of the refresh token. -/
def refreshToken (env : Env) (now : Nat) (flt : Nat → Option JsError) (db : Store)
    (refreshTokenValue : String) : Outcome :=
  if refreshTokenValue = "" then
    ⟨⟨400, .error "Refresh token obrigatório"⟩, db, []⟩
  else
    let r := selectSingle (flt 0) db.refresh_tokens (fun t => t.token == refreshTokenValue)
    let calls := [DbCall.selectRefreshToken refreshTokenValue]
    match r.error, r.data with
    | none, some tokenData =>
      match env.sign ⟨some tokenData.user_id, some tokenData.user_email⟩
          env.JWT_SECRET 86400 now with
      | .error e => caught e db calls
      | .ok newToken => ⟨⟨200, .token newToken⟩, db, calls⟩
    | _, _ => ⟨⟨403, .error "Refresh token inválido"⟩, db, calls⟩

/-- Handler `forgotPassword` (`POST /auth/forgot-password`). Round-trip 0 is the
insert of the reset token, whose result is awaited and not read. -/
def forgotPassword (env : Env) (now : Nat) (flt : Nat → Option JsError) (db : Store)
    (email : String) : Outcome :=
  if email = "" then
    ⟨⟨400, .error "Email obrigatório"⟩, db, []⟩
  else
    match env.sign ⟨none, some email⟩ env.JWT_SECRET 3600 now with
    | .error e => caught e db []
    | .ok resetToken =>
      let r := insertResetToken (flt 0) db email resetToken
      ⟨⟨200, .reset "Verifique seu email para recuperar a senha" resetToken⟩, r.2,
        [.insertResetToken email resetToken]⟩

/-- Handler `resetPassword` (`POST /auth/reset-password`). Round-trip 0 is the
update of the account, round-trip 1 the delete of the reset token, whose result
is awaited and not read. -/
def resetPassword (env : Env) (now salt : Nat) (flt : Nat → Option JsError) (db : Store)
    (resetToken newPassword : String) : Outcome :=
  if resetToken = "" ∨ newPassword = "" then
    ⟨⟨400, .error "Token e nova senha são obrigatórios"⟩, db, []⟩
  else
    match env.verify resetToken env.JWT_SECRET now with
    | .error e => caught e db []
    | .ok decoded =>
      match decoded.email with
      | none => ⟨⟨403, .error "Token inválido"⟩, db, []⟩
      | some decodedEmail =>
        if decodedEmail = "" then ⟨⟨403, .error "Token inválido"⟩, db, []⟩
        else
          match env.hash newPassword 10 salt with
          | .error e => caught e db []
          | .ok hashedPassword =>
            let u := updateUserPassword (flt 0) db decodedEmail hashedPassword
            match u.1 with
            | some e => caught e u.2 [.updateUserPassword decodedEmail hashedPassword]
            | none =>
              let d := deleteResetToken (flt 1) u.2 resetToken
              ⟨⟨200, .message "Senha resetada com sucesso"⟩, d.2,
                [.updateUserPassword decodedEmail hashedPassword,
                 .deleteResetToken resetToken]⟩

/-- Handler `validateCredentials` (`POST /auth/validate-credentials`).
Round-trip 0 is the lookup by email; only its `data` is read. -/
def validateCredentials (env : Env) (flt : Nat → Option JsError) (db : Store)
    (email password : String) : Outcome :=
  if email = "" ∨ password = "" then
    ⟨⟨400, .error "Email e senha são obrigatórios"⟩, db, []⟩
  else
    match (selectSingle (flt 0) db.users (fun u => u.email == email)).data with
    | none => ⟨⟨401, .valid false⟩, db, [.selectUserByEmail email]⟩
    | some user =>
      match env.compare password user.password with
      | .error e => caught e db [.selectUserByEmail email]
      | .ok validPassword => ⟨⟨200, .valid validPassword⟩, db, [.selectUserByEmail email]⟩

/-- Handler `getProfile` (`GET /auth/profile`), run with `req.user` set by
`authenticateToken`. Round-trip 0 is the lookup by id; a token without `id`
selects no row. -/
def getProfile (flt : Nat → Option JsError) (db : Store) (user : Payload) : Outcome :=
  let r := selectSingle (flt 0) db.users (fun u => some u.id == user.id)
  let calls := [DbCall.selectUserById user.id]
  match r.error with
  | some e => caught e db calls
  | none =>
    match r.data with
    | none => ⟨⟨200, .null⟩, db, calls⟩
    | some row => ⟨⟨200, .profile row.id row.email row.fullname row.created_at⟩, db, calls⟩

/-- Handler `get2FA` (`GET /auth/2fa`), run with `req.user` set by
`authenticateToken`. Round-trip 0 is the lookup by `user_id`. -/
def get2FA (flt : Nat → Option JsError) (db : Store) (user : Payload) : Outcome :=
  let r := selectSingle (flt 0) db.two_factor_auth (fun t => some t.user_id == user.id)
  let calls := [DbCall.selectTwoFactor user.id]
  match r.error with
  | some e =>
    if e.code ≠ PGRST116 then caught e db calls
    else ⟨⟨200, .enabled r.data.isSome⟩, db, calls⟩
  | none => ⟨⟨200, .enabled r.data.isSome⟩, db, calls⟩

/-! ## The bearer-token middleware -/

/-- Worker of `splitSpace`: `acc` is the current field, reversed. -/
def splitAux : List Char → List Char → List String
  | acc, [] => [String.mk acc.reverse]
  | acc, c :: cs =>
    if c = ' ' then String.mk acc.reverse :: splitAux [] cs else splitAux (c :: acc) cs

/-- The call `s.split(' ')`. -/
def splitSpace (s : String) : List String := splitAux [] s.data

/-- Middleware `authenticateToken` of `src/index.js`: `Except.error` is the
response it sends itself, `Except.ok user` is `next()` with `req.user = user`. -/
def authenticateToken (env : Env) (now : Nat) (authorization : Option String) :
    Except Response Payload :=
  match authorization with
  | none => .error ⟨401, .text "Unauthorized"⟩
  | some authHeader =>
    if authHeader = "" then .error ⟨401, .text "Unauthorized"⟩
    else
      match (splitSpace authHeader)[1]? with
      | none => .error ⟨401, .text "Unauthorized"⟩
      | some token =>
        if token = "" then .error ⟨401, .text "Unauthorized"⟩
        else
          match env.verify token env.JWT_SECRET now with
          | .error _ => .error ⟨403, .text "Forbidden"⟩
          | .ok user => .ok user

/-- Route `GET /auth/profile`: `authenticateToken`, then `getProfile`. -/
def profileRoute (env : Env) (now : Nat) (flt : Nat → Option JsError) (db : Store)
    (authorization : Option String) : Outcome :=
  match authenticateToken env now authorization with
  | .error r => ⟨r, db, []⟩
  | .ok user => getProfile flt db user

/-- Route `GET /auth/2fa`: `authenticateToken`, then `get2FA`. -/
def twoFactorRoute (env : Env) (now : Nat) (flt : Nat → Option JsError) (db : Store)
    (authorization : Option String) : Outcome :=
  match authenticateToken env now authorization with
  | .error r => ⟨r, db, []⟩
  | .ok user => get2FA flt db user

/-- The schedule in which every round-trip answers. -/
def noFault : Nat → Option JsError := fun _ => none

/-- The round-trip inserts a row. -/
def DbCall.isInsert : DbCall → Bool
  | .insertUser _ _ _ _ => true
  | .insertResetToken _ _ => true
  | _ => false

/-- The round-trip updates rows. -/
def DbCall.isUpdate : DbCall → Bool
  | .updateUserPassword _ _ => true
  | _ => false

/-- The round-trip deletes rows. -/
def DbCall.isDelete : DbCall → Bool
  | .deleteResetToken _ => true
  | _ => false

/-- The invariant of the data model: no two accounts share an email. -/
def Store.emailUnique (db : Store) : Prop :=
  (db.users.map (fun a => a.email)).Nodup

instance (db : Store) : Decidable db.emailUnique := by
  unfold Store.emailUnique
  infer_instance

/-! ## A test double for the two libraries

Used to run the handlers on concrete requests. A hash is
`$2a$<rounds>$<entropy>$<data>`; a token is `<exp>.<id>.<secret>.<email>` with
`<id>` empty when the payload has none. -/

namespace Demo

/-- Split at the first occurrence of `sep`: the field before it, and what
follows it (`none` when `sep` does not occur). -/
def cut (sep : Char) : List Char → List Char × Option (List Char)
  | [] => ([], none)
  | c :: cs =>
    if c = sep then ([], some cs)
    else ((c :: (cut sep cs).1), (cut sep cs).2)

/-- Drop `n` fields closed by `sep`. -/
def skip (sep : Char) : Nat → List Char → Option (List Char)
  | 0, cs => some cs
  | n + 1, cs =>
    match (cut sep cs).2 with
    | none => none
    | some rest => skip sep n rest

/-- Decimal value of a non-empty digit string. -/
def number (cs : List Char) : Option Nat :=
  if cs = [] ∨ ¬ cs.all Char.isDigit then none
  else some (cs.foldl (fun n c => 10 * n + (c.toNat - 48)) 0)

/-- Test double of `bcrypt.hash`. -/
def hash (data : String) (rounds entropy : Nat) : Except JsError String :=
  .ok ("$2a$" ++ toString rounds ++ "$" ++ toString entropy ++ "$" ++ data)

/-- Test double of `bcrypt.compare`. -/
def compare (data encrypted : String) : Except JsError Bool :=
  .ok (skip '$' 4 encrypted.data == some data.data)

/-- Test double of `jwt.sign`. -/
def sign (payload : Payload) (secret : String) (expiresIn clock : Nat) :
    Except JsError String :=
  if secret = "" then .error ⟨"", "secretOrPrivateKey must have a value"⟩
  else
    .ok (toString (clock + expiresIn) ++ "."
      ++ (match payload.id with | some i => toString i | none => "") ++ "."
      ++ secret ++ "." ++ payload.email.getD "")

/-- Test double of `jwt.verify`. -/
def verify (token secret : String) (clock : Nat) : Except JsError Payload :=
  match cut '.' token.data with
  | (e, some r₁) =>
    match cut '.' r₁ with
    | (i, some r₂) =>
      match cut '.' r₂ with
      | (s, some mail) =>
        match number e with
        | none => .error ⟨"", "jwt malformed"⟩
        | some exp =>
          if String.mk s ≠ secret then .error ⟨"", "invalid signature"⟩
          else if exp ≤ clock then .error ⟨"", "jwt expired"⟩
          else .ok ⟨number i, some (String.mk mail)⟩
      | _ => .error ⟨"", "jwt malformed"⟩
    | _ => .error ⟨"", "jwt malformed"⟩
  | _ => .error ⟨"", "jwt malformed"⟩

/-- The test environment. -/
def env : Env := ⟨"s3cret", hash, compare, sign, verify⟩

/-- The empty store. -/
def empty : Store := ⟨[], [], [], []⟩

/-- An account whose password is `pw1`. -/
def ann : User := ⟨1, "a@x.com", "$2a$10$7$pw1", "Ann", 1000⟩

/-- Another account, whose password is `hunter2`. -/
def bob : User := ⟨2, "b@x.com", "$2a$10$5$hunter2", "Bob", 1200⟩

/-- A store holding the two accounts. -/
def db₁ : Store := ⟨[ann, bob], [], [], []⟩

/-- The same failure kind as `down`, with another detail message. -/
def down₂ : JsError := ⟨"08006", "password authentication failed for user postgres"⟩

/-- A store failure that is not "record not found". -/
def down : JsError := ⟨"08006", "connection to db.internal:5432 refused"⟩

/-- Test double of `bcrypt.hash` that, like bcrypt, reads only the first 72
characters of the data. -/
def hash72 (data : String) (rounds entropy : Nat) : Except JsError String :=
  hash (String.mk (data.data.take 72)) rounds entropy

/-- Test double of `bcrypt.compare` that reads only the first 72 characters of
the data. -/
def compare72 (data encrypted : String) : Except JsError Bool :=
  compare (String.mk (data.data.take 72)) encrypted

/-- The test environment with the truncating hash. -/
def env72 : Env := ⟨"s3cret", hash72, compare72, sign, verify⟩

/-- A password of 73 characters: 72 times `a`, then `1`. -/
def long1 : String := String.mk (List.replicate 72 'a' ++ ['1'])

/-- A password of 73 characters: 72 times `a`, then `2`. -/
def long2 : String := String.mk (List.replicate 72 'a' ++ ['2'])

/-- An account whose password is `long1`, hashed by `hash72` with entropy 7. -/
def ann72 : User :=
  ⟨1, "a@x.com", "$2a$10$7$" ++ String.mk (List.replicate 72 'a'), "Ann", 1000⟩

/-- A store holding `ann72` and `bob`. -/
def db72 : Store := ⟨[ann72, bob], [], [], []⟩

/-- The schedule in which round-trip `k` reports `e` and the others answer. -/
def failAt (k : Nat) (e : JsError) : Nat → Option JsError :=
  fun i => if i = k then some e else none

end Demo

/-! ## Store lemmas -/

/-- A round-trip that answers and finds exactly one matching row returns it. -/
theorem selectSingle_one {α : Type} (rows : List α) (p : α → Bool) (r : α)
    (h : rows.filter p = [r]) : selectSingle none rows p = ⟨some r, none⟩ := by
  simp [selectSingle, h]

/-- A lookup never returns data when no row matches, whatever the schedule. -/
theorem selectSingle_data_none {α : Type} (f : Option JsError) (rows : List α)
    (p : α → Bool) (h : rows.filter p = []) : (selectSingle f rows p).data = none := by
  cases f <;> simp [selectSingle, h]

/-- No row has the email: the filter by that email is empty. -/
theorem filter_email_nil (users : List User) (email : String)
    (h : ∀ a ∈ users, a.email ≠ email) :
    users.filter (fun a => a.email == email) = [] := by
  simp [List.filter_eq_nil_iff]
  exact h

/-- Emails are pairwise distinct: the filter by the email of a row is that row. -/
theorem filter_email_unique (users : List User) (u : User) (hu : u ∈ users)
    (huniq : (users.map (fun a => a.email)).Nodup) :
    users.filter (fun a => a.email == u.email) = [u] := by
  induction users with
  | nil => simp at hu
  | cons a as ih =>
    simp only [List.map_cons, List.nodup_cons, List.mem_map, not_exists, not_and] at huniq
    rcases List.mem_cons.mp hu with rfl | hmem
    · have : as.filter (fun a => a.email == u.email) = [] := by
        apply filter_email_nil
        intro b hb
        exact huniq.1 b hb
      simp [List.filter_cons, this]
    · have hne : a.email ≠ u.email := fun h => huniq.1 u hmem h.symm
      simp [List.filter_cons, hne, ih hmem huniq.2]

/-- The run of `login` when the lookup answers with exactly one account. -/
theorem login_found (env : Env) (now : Nat) (flt : Nat → Option JsError) (db : Store)
    (email password : String) (user : User)
    (he : email ≠ "") (hp : password ≠ "") (hflt : flt 0 = none)
    (hfil : db.users.filter (fun u => u.email == email) = [user]) :
    login env now flt db email password
      = match env.compare password user.password with
        | .error e => caught e db [.selectUserByEmail email]
        | .ok false => ⟨⟨401, .error "Email ou senha inválidos"⟩, db, [.selectUserByEmail email]⟩
        | .ok true =>
          match env.sign ⟨some user.id, some user.email⟩ env.JWT_SECRET 86400 now with
          | .error e => caught e db [.selectUserByEmail email]
          | .ok token =>
            ⟨⟨200, .userToken "Login realizado com sucesso"
                user.id user.email user.fullname token⟩, db, [.selectUserByEmail email]⟩ := by
  unfold login
  rw [hflt, selectSingle_one _ _ _ hfil]
  simp only [he, hp, or_self, if_false]

/-! ## validateCredentials on an unknown email (C3) -/

/-- C3, counterexample: on the empty store, `validateCredentials` with the
non-empty email `a@x.com` and password `pw1` answers status 401 (body
`{ valid: false }`), not status 200. -/
theorem validateCredentials_unknown_not_200 :
    (∀ a ∈ Demo.empty.users, a.email ≠ "a@x.com") ∧
    (validateCredentials Demo.env noFault Demo.empty "a@x.com" "pw1").response
      = ⟨401, .valid false⟩ ∧
    (validateCredentials Demo.env noFault Demo.empty "a@x.com" "pw1").response.status
      ≠ 200 := by
  refine ⟨?_, ?_, ?_⟩
  · intro a ha
    simp [Demo.empty] at ha
  · rfl
  · decide

/-- C3, amended: for non-empty email and password such that the store holds no
account with that email, `validateCredentials` answers status 401 with body
`{ valid: false }` (no `error` body), performs only the lookup and leaves the
store unchanged. -/
theorem validateCredentials_unknown (env : Env) (flt : Nat → Option JsError) (db : Store)
    (email password : String) (he : email ≠ "") (hp : password ≠ "")
    (hno : ∀ a ∈ db.users, a.email ≠ email) :
    validateCredentials env flt db email password
      = ⟨⟨401, .valid false⟩, db, [.selectUserByEmail email]⟩ := by
  have hd := selectSingle_data_none (flt 0) db.users (fun u => u.email == email)
    (filter_email_nil db.users email hno)
  simp [validateCredentials, he, hp, hd]

/-- C3, amended, at a concrete request. -/
theorem validateCredentials_unknown_witness :
    ("c@x.com" ≠ "" ∧ "pw" ≠ "" ∧ ∀ a ∈ Demo.db₁.users, a.email ≠ "c@x.com") ∧
    validateCredentials Demo.env noFault Demo.db₁ "c@x.com" "pw"
      = ⟨⟨401, .valid false⟩, Demo.db₁, [.selectUserByEmail "c@x.com"]⟩ :=
  ⟨⟨by decide, by decide, by decide⟩,
    validateCredentials_unknown Demo.env noFault Demo.db₁ "c@x.com" "pw"
      (by decide) (by decide) (by decide)⟩

/-! ## register on an email already present (C4) -/

/-- C4: when the store holds an account with email `e` (emails being unique, as
the data model requires) and the lookup round-trip answers, `register` with `e`
and non-empty password and fullname answers 409 `Conflict`, performs the lookup
only (no insert), and leaves the store unchanged: it still holds exactly that
one account for `e`. -/
theorem register_existing_email_conflict (env : Env) (now salt : Nat)
    (flt : Nat → Option JsError) (db : Store) (u : User) (password fullname : String)
    (hu : u ∈ db.users) (huniq : db.emailUnique) (hflt : flt 0 = none)
    (he : u.email ≠ "") (hp : password ≠ "") (hf : fullname ≠ "") :
    (register env now salt flt db u.email password fullname).response
      = ⟨409, .error "Usuário já existe"⟩ ∧
    (register env now salt flt db u.email password fullname).calls
      = [.selectUserByEmail u.email] ∧
    (∀ c ∈ (register env now salt flt db u.email password fullname).calls,
      c.isInsert = false) ∧
    (register env now salt flt db u.email password fullname).db = db ∧
    (register env now salt flt db u.email password fullname).db.users.filter
      (fun a => a.email == u.email) = [u] := by
  have hsel := selectSingle_one db.users (fun a => a.email == u.email) u
    (filter_email_unique db.users u hu huniq)
  have hout : register env now salt flt db u.email password fullname
      = ⟨⟨409, .error "Usuário já existe"⟩, db, [.selectUserByEmail u.email]⟩ := by
    simp [register, he, hp, hf, hflt, hsel]
  rw [hout]
  refine ⟨rfl, rfl, ?_, rfl, filter_email_unique db.users u hu huniq⟩
  intro c hc
  simp at hc
  subst hc
  rfl

/-- C4 at a concrete request: a second registration of `a@x.com`. -/
theorem register_existing_email_conflict_witness :
    (Demo.ann ∈ Demo.db₁.users ∧ Demo.db₁.emailUnique ∧ noFault 0 = none ∧
      Demo.ann.email ≠ "" ∧ "zzz" ≠ "" ∧ "Ann B" ≠ "") ∧
    (register Demo.env 2000 3 noFault Demo.db₁ "a@x.com" "zzz" "Ann B").response
      = ⟨409, .error "Usuário já existe"⟩ ∧
    (register Demo.env 2000 3 noFault Demo.db₁ "a@x.com" "zzz" "Ann B").db = Demo.db₁ :=
  have h := register_existing_email_conflict Demo.env 2000 3 noFault Demo.db₁ Demo.ann
    "zzz" "Ann B" (by decide) (by decide) rfl (by decide) (by decide) (by decide)
  ⟨⟨by decide, by decide, rfl, by decide, by decide, by decide⟩, h.1, h.2.2.2.1⟩

/-! ## login does not reveal whether the account exists (C5) -/

/-- C5: a run of `login` with the email of an existing account and a password
the comparison primitive rejects against the stored hash, and a run with an
email for which the store holds no account, send the same response: status 401
with body `{ error: "Email ou senha inválidos" }`. This holds whatever the
stores, clocks and store failures of the two runs. -/
theorem login_response_independent_of_existence (env : Env) (now₁ now₂ : Nat)
    (flt₁ flt₂ : Nat → Option JsError) (db₁ db₂ : Store) (u : User)
    (password₁ email₂ password₂ : String)
    (hu : u ∈ db₁.users)
    (he₁ : u.email ≠ "") (hp₁ : password₁ ≠ "")
    (hwrong : env.compare password₁ u.password = .ok false)
    (he₂ : email₂ ≠ "") (hp₂ : password₂ ≠ "")
    (hno : ∀ a ∈ db₂.users, a.email ≠ email₂) :
    (login env now₁ flt₁ db₁ u.email password₁).response
      = (login env now₂ flt₂ db₂ email₂ password₂).response ∧
    (login env now₁ flt₁ db₁ u.email password₁).response
      = ⟨401, .error "Email ou senha inválidos"⟩ := by
  have h₁ : (login env now₁ flt₁ db₁ u.email password₁).response
      = ⟨401, .error "Email ou senha inválidos"⟩ := by
    cases hf : flt₁ 0 with
    | some e => simp [login, he₁, hp₁, hf, selectSingle]
    | none =>
      match hfil : db₁.users.filter (fun a => a.email == u.email) with
      | [] => simp [login, he₁, hp₁, hf, selectSingle, hfil]
      | [v] =>
        have hmem : u ∈ db₁.users.filter (fun a => a.email == u.email) := by
          simp [List.mem_filter, hu]
        rw [hfil] at hmem
        have huv : u = v := by simpa using hmem
        subst huv
        rw [login_found env now₁ flt₁ db₁ u.email password₁ u he₁ hp₁ hf hfil]
        simp [hwrong]
      | v :: w :: l => simp [login, he₁, hp₁, hf, selectSingle, hfil]
  have h₂ : (login env now₂ flt₂ db₂ email₂ password₂).response
      = ⟨401, .error "Email ou senha inválidos"⟩ := by
    have hd := selectSingle_data_none (flt₂ 0) db₂.users (fun a => a.email == email₂)
      (filter_email_nil db₂.users email₂ hno)
    simp only [login, he₂, hp₂, or_self, if_false, hd]
    split <;> simp_all
  exact ⟨h₁.trans h₂.symm, h₁⟩

/-- C5 at a concrete pair of runs on the same store: `a@x.com` with a wrong
password, and the unknown `c@x.com`. -/
theorem login_response_independent_of_existence_witness :
    (Demo.ann ∈ Demo.db₁.users ∧
      Demo.env.compare "wrong" Demo.ann.password = .ok false ∧
      ∀ a ∈ Demo.db₁.users, a.email ≠ "c@x.com") ∧
    (login Demo.env 2000 noFault Demo.db₁ "a@x.com" "wrong").response
      = (login Demo.env 2000 noFault Demo.db₁ "c@x.com" "pw1").response :=
  ⟨⟨by decide, rfl, by decide⟩,
    (login_response_independent_of_existence Demo.env 2000 2000 noFault noFault
      Demo.db₁ Demo.db₁ Demo.ann "wrong" "c@x.com" "pw1"
      (by decide) (by decide) (by decide) rfl
      (by decide) (by decide) (by decide)).1⟩

/-! ## resetPassword: update, then delete (C10) -/

/-- The shapes a run of `resetPassword` can take: no round-trip at all; the
update alone, which then reported an error and the store is as before; or the
update, which reported no error, followed by the delete. -/
theorem resetPassword_calls (env : Env) (now salt : Nat) (flt : Nat → Option JsError)
    (db : Store) (resetToken newPassword : String) :
    (resetPassword env now salt flt db resetToken newPassword).calls = [] ∨
    (∃ email h e, flt 0 = some e ∧
      resetPassword env now salt flt db resetToken newPassword
        = ⟨⟨500, .error e.message⟩, db, [.updateUserPassword email h]⟩) ∨
    (∃ email h, flt 0 = none ∧
      (resetPassword env now salt flt db resetToken newPassword).calls
        = [.updateUserPassword email h, .deleteResetToken resetToken]) := by
  unfold resetPassword
  split
  · exact Or.inl rfl
  · split
    · exact Or.inl rfl
    · split
      · exact Or.inl rfl
      · split
        · exact Or.inl rfl
        · split
          · exact Or.inl rfl
          · rename_i decodedEmail _ _ _ hashedPassword _
            cases hf : flt 0 with
            | some e =>
              refine Or.inr (Or.inl ⟨decodedEmail, hashedPassword, e, rfl, ?_⟩)
              simp [updateUserPassword, caught]
            | none =>
              refine Or.inr (Or.inr ⟨decodedEmail, hashedPassword, rfl, ?_⟩)
              simp [updateUserPassword]

/-- C10: in `resetPassword` the delete of the reset token is issued only after
the account update, and only when that update reported no error; and for a
reset token that verifies (with a non-empty embedded email) and a new password
that hashes, if the update reports an error the response is a failure (500),
the update is the only round-trip issued, and the store (so the
`password_reset_tokens` records) is exactly as before the call. -/
theorem resetPassword_update_before_delete (env : Env) (now salt : Nat)
    (flt : Nat → Option JsError) (db : Store) (resetToken newPassword : String) :
    ((∃ c ∈ (resetPassword env now salt flt db resetToken newPassword).calls,
        c.isDelete = true) →
      flt 0 = none ∧ ∃ email h,
        (resetPassword env now salt flt db resetToken newPassword).calls
          = [.updateUserPassword email h, .deleteResetToken resetToken]) ∧
    (∀ (decoded : Payload) (email h : String) (e : JsError),
      resetToken ≠ "" → newPassword ≠ "" →
      env.verify resetToken env.JWT_SECRET now = .ok decoded →
      decoded.email = some email → email ≠ "" →
      env.hash newPassword 10 salt = .ok h →
      flt 0 = some e →
      resetPassword env now salt flt db resetToken newPassword
        = ⟨⟨500, .error e.message⟩, db, [.updateUserPassword email h]⟩ ∧
      (resetPassword env now salt flt db resetToken newPassword).db.password_reset_tokens
        = db.password_reset_tokens) := by
  constructor
  · rintro ⟨c, hc, hdel⟩
    rcases resetPassword_calls env now salt flt db resetToken newPassword with
      h | ⟨email, h, e, _, hout⟩ | ⟨email, h, hf, hcalls⟩
    · rw [h] at hc
      simp at hc
    · rw [hout] at hc
      simp at hc
      subst hc
      simp [DbCall.isDelete] at hdel
    · exact ⟨hf, email, h, hcalls⟩
  · intro decoded email h e ht hp hv hm hne hh hf
    have hout : resetPassword env now salt flt db resetToken newPassword
        = ⟨⟨500, .error e.message⟩, db, [.updateUserPassword email h]⟩ := by
      simp [resetPassword, ht, hp, hv, hm, hne, hh, hf, updateUserPassword, caught]
    rw [hout]
    exact ⟨rfl, rfl⟩

/-- C10 at a concrete request: a live reset token for `a@x.com`, stored in
`password_reset_tokens`, and an update that reports a connection failure. -/
theorem resetPassword_update_before_delete_witness :
    (Demo.env.verify "5600..s3cret.a@x.com" Demo.env.JWT_SECRET 2100
        = .ok ⟨none, some "a@x.com"⟩ ∧
      Demo.env.hash "pw2" 10 8 = .ok "$2a$10$8$pw2" ∧
      Demo.failAt 0 Demo.down 0 = some Demo.down) ∧
    resetPassword Demo.env 2100 8 (Demo.failAt 0 Demo.down)
        { Demo.db₁ with password_reset_tokens := [⟨"a@x.com", "5600..s3cret.a@x.com"⟩] }
        "5600..s3cret.a@x.com" "pw2"
      = ⟨⟨500, .error Demo.down.message⟩,
          { Demo.db₁ with password_reset_tokens := [⟨"a@x.com", "5600..s3cret.a@x.com"⟩] },
          [.updateUserPassword "a@x.com" "$2a$10$8$pw2"]⟩ :=
  ⟨⟨rfl, rfl, rfl⟩,
    ((resetPassword_update_before_delete Demo.env 2100 8 (Demo.failAt 0 Demo.down)
      { Demo.db₁ with password_reset_tokens := [⟨"a@x.com", "5600..s3cret.a@x.com"⟩] }
      "5600..s3cret.a@x.com" "pw2").2
      ⟨none, some "a@x.com"⟩ "a@x.com" "$2a$10$8$pw2" Demo.down
      (by decide) (by decide) rfl rfl (by decide) rfl rfl).1⟩

/-! ## resetPassword on a token that does not verify (C2) -/

/-- When `jwt.verify` throws, `resetPassword` ends in its `catch` block: status
500 with the thrown message, no round-trip, store untouched. -/
theorem resetPassword_verify_throws (env : Env) (now salt : Nat)
    (flt : Nat → Option JsError) (db : Store) (resetToken newPassword : String)
    (e : JsError) (ht : resetToken ≠ "") (hp : newPassword ≠ "")
    (hv : env.verify resetToken env.JWT_SECRET now = .error e) :
    resetPassword env now salt flt db resetToken newPassword
      = ⟨⟨500, .error e.message⟩, db, []⟩ := by
  simp [resetPassword, ht, hp, hv, caught]

/-- C2, the code at a failing input: the non-empty token `garbage`, which
`verify` rejects, makes `resetPassword` answer 500 with the verifier's message
(not 403), and so does an expired reset token; neither run issues a store
round-trip. The bearer middleware maps the same rejection to 403. -/
theorem resetPassword_rejected_token_is_500 :
    Demo.env.verify "garbage" Demo.env.JWT_SECRET 2100 = .error ⟨"", "jwt malformed"⟩ ∧
    resetPassword Demo.env 2100 8 noFault Demo.db₁ "garbage" "pw2"
      = ⟨⟨500, .error "jwt malformed"⟩, Demo.db₁, []⟩ ∧
    Demo.env.verify "5600..s3cret.a@x.com" Demo.env.JWT_SECRET 5600
      = .error ⟨"", "jwt expired"⟩ ∧
    resetPassword Demo.env 5600 8 noFault Demo.db₁ "5600..s3cret.a@x.com" "pw2"
      = ⟨⟨500, .error "jwt expired"⟩, Demo.db₁, []⟩ ∧
    authenticateToken Demo.env 2100 (some "Bearer garbage")
      = .error ⟨403, .text "Forbidden"⟩ :=
  ⟨rfl, rfl, rfl, rfl, rfl⟩

/-! ## resetPassword with a token already used (C1) -/

/-- The response of `resetPassword` does not depend on the stored reset tokens:
the handler never reads `password_reset_tokens`. -/
theorem resetPassword_ignores_stored_tokens (env : Env) (now salt : Nat)
    (flt : Nat → Option JsError) (db : Store) (rows : List ResetTokenRow)
    (resetToken newPassword : String) :
    (resetPassword env now salt flt { db with password_reset_tokens := rows }
      resetToken newPassword).response
      = (resetPassword env now salt flt db resetToken newPassword).response := by
  unfold resetPassword
  split
  · rfl
  · split
    · rfl
    · split
      · rfl
      · split
        · rfl
        · split
          · rfl
          · cases flt 0 <;> rfl

/-- C1, the code at a failing input: `forgotPassword` for `a@x.com` at clock 2000
returns the reset token `5600..s3cret.a@x.com` and stores it; `resetPassword`
with it at clock 2100 answers 200 and deletes the stored record; a second
`resetPassword` with the same token at clock 2200, before its expiry at 5600,
answers 200 again (not 403) and overwrites the account's password hash. -/
theorem resetPassword_token_replay :
    forgotPassword Demo.env 2000 noFault Demo.db₁ "a@x.com"
      = ⟨⟨200, .reset "Verifique seu email para recuperar a senha" "5600..s3cret.a@x.com"⟩,
          ⟨[Demo.ann, Demo.bob], [], [⟨"a@x.com", "5600..s3cret.a@x.com"⟩], []⟩,
          [.insertResetToken "a@x.com" "5600..s3cret.a@x.com"]⟩ ∧
    resetPassword Demo.env 2100 8 noFault
        ⟨[Demo.ann, Demo.bob], [], [⟨"a@x.com", "5600..s3cret.a@x.com"⟩], []⟩
        "5600..s3cret.a@x.com" "pw2"
      = ⟨⟨200, .message "Senha resetada com sucesso"⟩,
          ⟨[{ Demo.ann with password := "$2a$10$8$pw2" }, Demo.bob], [], [], []⟩,
          [.updateUserPassword "a@x.com" "$2a$10$8$pw2",
           .deleteResetToken "5600..s3cret.a@x.com"]⟩ ∧
    resetPassword Demo.env 2200 9 noFault
        ⟨[{ Demo.ann with password := "$2a$10$8$pw2" }, Demo.bob], [], [], []⟩
        "5600..s3cret.a@x.com" "pw3"
      = ⟨⟨200, .message "Senha resetada com sucesso"⟩,
          ⟨[{ Demo.ann with password := "$2a$10$9$pw3" }, Demo.bob], [], [], []⟩,
          [.updateUserPassword "a@x.com" "$2a$10$9$pw3",
           .deleteResetToken "5600..s3cret.a@x.com"]⟩ :=
  ⟨rfl, rfl, rfl⟩

/-! ## register, login, profile (C6) -/

/-- Every id of the table is below the fresh one. -/
theorem id_lt_freshId (users : List User) (u : User) (hu : u ∈ users) :
    u.id < freshId users := by
  induction users with
  | nil => simp at hu
  | cons a as ih =>
    simp only [freshId, List.map_cons, List.foldr_cons] at ih ⊢
    rcases List.mem_cons.mp hu with rfl | hmem
    · omega
    · have := ih hmem
      omega

/-- No row carries the fresh id. -/
theorem filter_freshId_nil (users : List User) :
    users.filter (fun u => some u.id == some (freshId users)) = [] := by
  simp only [List.filter_eq_nil_iff]
  intro a ha
  have := id_lt_freshId users a ha
  simp
  omega

/-- A field without a space is not split. -/
theorem splitAux_no_space (acc l : List Char) (h : ' ' ∉ l) :
    splitAux acc l = [String.mk (acc.reverse ++ l)] := by
  induction l generalizing acc with
  | nil => simp [splitAux]
  | cons c cs ih =>
    have hc : c ≠ ' ' := fun hc => h (by simp [hc])
    have hcs : ' ' ∉ cs := fun hcs => h (by simp [hcs])
    simp [splitAux, hc, ih (c :: acc) hcs]

/-- The second field of `Bearer <token>` is the token, when it has no space. -/
theorem splitSpace_bearer (t : String) (h : ' ' ∉ t.data) :
    (splitSpace ("Bearer " ++ t))[1]? = some t := by
  have hd : ("Bearer " ++ t).data = 'B' :: 'e' :: 'a' :: 'r' :: 'e' :: 'r' :: ' ' :: t.data := by
    simp [String.data_append]
  simp [splitSpace, hd, splitAux, splitAux_no_space [] t.data h]

/-- The header `Bearer <token>` passes `authenticateToken` when the token
verifies. -/
theorem authenticateToken_bearer (env : Env) (now : Nat) (t : String) (user : Payload)
    (hne : t ≠ "") (hsp : ' ' ∉ t.data)
    (hv : env.verify t env.JWT_SECRET now = .ok user) :
    authenticateToken env now (some ("Bearer " ++ t)) = .ok user := by
  have hb : "Bearer " ++ t ≠ "" := by
    intro h
    have := congrArg String.data h
    simp [String.data_append] at this
  simp [authenticateToken, hb, splitSpace_bearer t hsp, hne, hv]

/-- The run of `getProfile` when the lookup answers with exactly one account. -/
theorem getProfile_found (flt : Nat → Option JsError) (db : Store) (user : Payload)
    (row : User) (hflt : flt 0 = none)
    (hfil : db.users.filter (fun u => some u.id == user.id) = [row]) :
    getProfile flt db user
      = ⟨⟨200, .profile row.id row.email row.fullname row.created_at⟩, db,
          [.selectUserById user.id]⟩ := by
  unfold getProfile
  rw [hflt, selectSingle_one _ _ _ hfil]

/-- What a successful `register` leaves in the store and answers. -/
theorem register_fresh (env : Env) (now salt : Nat) (db : Store)
    (email password fullname h t : String)
    (he : email ≠ "") (hp : password ≠ "") (hf : fullname ≠ "")
    (hno : ∀ a ∈ db.users, a.email ≠ email)
    (hhash : env.hash password 10 salt = .ok h)
    (hsign : env.sign ⟨some (freshId db.users), some email⟩ env.JWT_SECRET 86400 now
      = .ok t) :
    register env now salt noFault db email password fullname
      = ⟨⟨201, .userToken "Usuário registrado com sucesso"
            (freshId db.users) email fullname t⟩,
          { db with users := db.users ++ [⟨freshId db.users, email, h, fullname, now⟩] },
          [.selectUserByEmail email, .insertUser email h fullname now]⟩ := by
  have hd := selectSingle_data_none none db.users (fun u => u.email == email)
    (filter_email_nil db.users email hno)
  simp [register, he, hp, hf, hd, hhash, insertUser, noFault, hsign]

/-- C6: from a store with no account for `email`, with non-empty fields, store
round-trips that answer, a hash primitive with `compare(p, hash(p)) = true`,
and a token primitive that signs and whose verification returns the signed
payload: `register` answers 201, a following `login` with the same credentials
answers 200 with the same account id and email, the token it returns passes
`authenticateToken`, and `GET /auth/profile` with it returns the registered
account's id, email, fullname and created_at. -/
theorem register_login_profile (env : Env) (now₁ now₂ now₃ salt : Nat) (db : Store)
    (email password fullname h t₁ t₂ : String)
    (he : email ≠ "") (hp : password ≠ "") (hf : fullname ≠ "")
    (hno : ∀ a ∈ db.users, a.email ≠ email)
    (hhash : env.hash password 10 salt = .ok h)
    (hcmp : env.compare password h = .ok true)
    (hsign₁ : env.sign ⟨some (freshId db.users), some email⟩ env.JWT_SECRET 86400 now₁
      = .ok t₁)
    (hsign₂ : env.sign ⟨some (freshId db.users), some email⟩ env.JWT_SECRET 86400 now₂
      = .ok t₂)
    (hne : t₂ ≠ "") (hsp : ' ' ∉ t₂.data)
    (hver : env.verify t₂ env.JWT_SECRET now₃
      = .ok ⟨some (freshId db.users), some email⟩) :
    (register env now₁ salt noFault db email password fullname).response
      = ⟨201, .userToken "Usuário registrado com sucesso"
          (freshId db.users) email fullname t₁⟩ ∧
    (login env now₂ noFault
        (register env now₁ salt noFault db email password fullname).db
        email password).response
      = ⟨200, .userToken "Login realizado com sucesso"
          (freshId db.users) email fullname t₂⟩ ∧
    authenticateToken env now₃ (some ("Bearer " ++ t₂))
      = .ok ⟨some (freshId db.users), some email⟩ ∧
    (profileRoute env now₃ noFault
        (register env now₁ salt noFault db email password fullname).db
        (some ("Bearer " ++ t₂))).response
      = ⟨200, .profile (freshId db.users) email fullname now₁⟩ := by
  rw [register_fresh env now₁ salt db email password fullname h t₁ he hp hf hno hhash hsign₁]
  have hauth := authenticateToken_bearer env now₃ t₂ _ hne hsp hver
  refine ⟨rfl, ?_, hauth, ?_⟩
  · have hfil : (db.users ++ [(⟨freshId db.users, email, h, fullname, now₁⟩ : User)]).filter
        (fun u => u.email == email) = [⟨freshId db.users, email, h, fullname, now₁⟩] := by
      rw [List.filter_append, filter_email_nil db.users email hno]
      simp [List.filter_cons]
    rw [login_found env now₂ noFault _ email password _ he hp rfl hfil]
    simp only [hcmp, hsign₂]
  · have hfil : (db.users ++ [(⟨freshId db.users, email, h, fullname, now₁⟩ : User)]).filter
        (fun u => some u.id == (⟨some (freshId db.users), some email⟩ : Payload).id)
        = [⟨freshId db.users, email, h, fullname, now₁⟩] := by
      rw [List.filter_append, filter_freshId_nil db.users]
      simp [List.filter_cons]
    simp only [profileRoute, hauth]
    rw [getProfile_found noFault _ _ _ rfl hfil]

/-- C6 at a concrete scenario: `c@x.com` registers at clock 3000, logs in at
3100, and reads the profile at 3200. -/
theorem register_login_profile_witness :
    ((∀ a ∈ Demo.db₁.users, a.email ≠ "c@x.com") ∧
      Demo.env.hash "pw9" 10 4 = .ok "$2a$10$4$pw9" ∧
      Demo.env.compare "pw9" "$2a$10$4$pw9" = .ok true ∧
      Demo.env.sign ⟨some 3, some "c@x.com"⟩ Demo.env.JWT_SECRET 86400 3100
        = .ok "89500.3.s3cret.c@x.com" ∧
      Demo.env.verify "89500.3.s3cret.c@x.com" Demo.env.JWT_SECRET 3200
        = .ok ⟨some 3, some "c@x.com"⟩) ∧
    (login Demo.env 3100 noFault
        (register Demo.env 3000 4 noFault Demo.db₁ "c@x.com" "pw9" "Cy").db
        "c@x.com" "pw9").response
      = ⟨200, .userToken "Login realizado com sucesso" 3 "c@x.com" "Cy"
          "89500.3.s3cret.c@x.com"⟩ ∧
    (profileRoute Demo.env 3200 noFault
        (register Demo.env 3000 4 noFault Demo.db₁ "c@x.com" "pw9" "Cy").db
        (some "Bearer 89500.3.s3cret.c@x.com")).response
      = ⟨200, .profile 3 "c@x.com" "Cy" 3000⟩ :=
  have h := register_login_profile Demo.env 3000 3100 3200 4 Demo.db₁
    "c@x.com" "pw9" "Cy" "$2a$10$4$pw9" "89400.3.s3cret.c@x.com" "89500.3.s3cret.c@x.com"
    (by decide) (by decide) (by decide) (by decide) rfl rfl rfl rfl
    (by decide) (by decide) rfl
  ⟨⟨by decide, rfl, rfl, rfl, rfl⟩, h.2.1, h.2.2.2⟩

/-! ## forgotPassword, resetPassword, login (C7) -/

/-- The update keeps every email. -/
theorem setPassword_email (email password : String) (u : User) :
    (setPassword email password u).email = u.email := by
  unfold setPassword
  split <;> rfl

/-- `forgotPassword` never touches the accounts. -/
theorem forgotPassword_users (env : Env) (now : Nat) (flt : Nat → Option JsError)
    (db : Store) (email : String) :
    (forgotPassword env now flt db email).db.users = db.users := by
  unfold forgotPassword
  split
  · rfl
  · split
    · rfl
    · cases hf : flt 0 <;> simp [insertResetToken]

/-- A run of `forgotPassword` that answers with a reset token signed it for the
given email, valid for 3600 seconds. -/
theorem forgotPassword_ok (env : Env) (now : Nat) (flt : Nat → Option JsError)
    (db : Store) (email msg R : String)
    (h : (forgotPassword env now flt db email).response = ⟨200, .reset msg R⟩) :
    env.sign ⟨none, some email⟩ env.JWT_SECRET 3600 now = .ok R := by
  unfold forgotPassword at h
  split at h
  · simp at h
  · split at h
    · simp [caught] at h
    · rename_i tok hs
      simp at h
      rw [hs, h.2]

/-- A run of `resetPassword` that answers 200 verified the token, found a
non-empty email in it, hashed the new password, got no error from the update,
and left in `users` the rows updated for that email. -/
theorem resetPassword_ok (env : Env) (now salt : Nat) (flt : Nat → Option JsError)
    (db : Store) (resetToken newPassword : String)
    (h200 : (resetPassword env now salt flt db resetToken newPassword).response.status
      = 200) :
    ∃ d email h, env.verify resetToken env.JWT_SECRET now = .ok d ∧
      d.email = some email ∧ email ≠ "" ∧ newPassword ≠ "" ∧
      env.hash newPassword 10 salt = .ok h ∧ flt 0 = none ∧
      (resetPassword env now salt flt db resetToken newPassword).db.users
        = db.users.map (setPassword email h) := by
  unfold resetPassword at h200 ⊢
  split at h200
  · simp at h200
  · rename_i hne
    simp only [not_or] at hne
    split at h200
    · simp [caught] at h200
    · rename_i d hv
      split at h200
      · simp at h200
      · rename_i email hm
        split at h200
        · simp at h200
        · rename_i hem
          split at h200
          · simp [caught] at h200
          · rename_i h hh
            cases hf : flt 0 with
            | some e => simp [hf, updateUserPassword, caught] at h200
            | none =>
              refine ⟨d, email, h, hv, hm, hem, hne.2, hh, rfl, ?_⟩
              simp only [hne.1, hne.2, or_self, if_false, hv, hm, hem, hh]
              cases flt 1 <;> simp [updateUserPassword, deleteResetToken]

/-- Filtering by email commutes with the password update. -/
theorem filter_email_setPassword (users : List User) (email password e : String) :
    (users.map (setPassword email password)).filter (fun a => a.email == e)
      = (users.filter (fun a => a.email == e)).map (setPassword email password) := by
  induction users with
  | nil => rfl
  | cons a as ih =>
    simp only [List.map_cons, List.filter_cons, setPassword_email]
    split
    · simp [ih]
    · exact ih

/-- C7, counterexample: with a hash primitive that reads only the first 72
characters (and for which `compare(p, hash(p))` is true), the account `a@x.com`
has the 73-character password `long1`; `forgotPassword` returns a reset token,
`resetPassword` with it and the different password `long2`, which shares the
first 72 characters, answers 200; afterwards `login(a@x.com, long1)` answers
200, not 401. -/
theorem reset_old_password_still_accepted :
    Demo.long1 ≠ Demo.long2 ∧
    Demo.env72.hash Demo.long1 10 7 = .ok Demo.ann72.password ∧
    Demo.env72.compare Demo.long1 Demo.ann72.password = .ok true ∧
    (forgotPassword Demo.env72 2000 noFault Demo.db72 "a@x.com").response
      = ⟨200, .reset "Verifique seu email para recuperar a senha"
          "5600..s3cret.a@x.com"⟩ ∧
    (resetPassword Demo.env72 2100 8 noFault
      (forgotPassword Demo.env72 2000 noFault Demo.db72 "a@x.com").db
      "5600..s3cret.a@x.com" Demo.long2).response
      = ⟨200, .message "Senha resetada com sucesso"⟩ ∧
    (login Demo.env72 2300 noFault
      (resetPassword Demo.env72 2100 8 noFault
        (forgotPassword Demo.env72 2000 noFault Demo.db72 "a@x.com").db
        "5600..s3cret.a@x.com" Demo.long2).db
      "a@x.com" Demo.long1).response
      = ⟨200, .userToken "Login realizado com sucesso" 1 "a@x.com" "Ann"
          "88700.1.s3cret.a@x.com"⟩ :=
  ⟨by decide, rfl, rfl, rfl, rfl, rfl⟩

/-- C7, amended: for an existing account `u` (emails unique) and passwords
`pw1`, `pw2` such that the comparison primitive rejects `pw1` and accepts `pw2`
against the hash `resetPassword` computes for `pw2` (so `pw1` differs from
`pw2`), if `forgotPassword(u.email)` returns the reset token `R` and
`resetPassword(R, pw2)` then answers 200, with a token primitive whose
verification of `R` returns the email it was signed for, then afterwards
`login(u.email, pw1)` answers 401, `login(u.email, pw2)` answers 200 for the
same account, and every account with another email is stored exactly as
before. -/
theorem reset_then_login (env : Env) (now₀ now₁ now₂ now₃ salt : Nat)
    (flt₀ flt₁ : Nat → Option JsError) (db : Store) (u : User)
    (pw1 pw2 msg R t : String)
    (hu : u ∈ db.users) (huniq : db.emailUnique)
    (he : u.email ≠ "") (hp1 : pw1 ≠ "")
    (hforgot : (forgotPassword env now₀ flt₀ db u.email).response = ⟨200, .reset msg R⟩)
    (hreset : (resetPassword env now₁ salt flt₁
      (forgotPassword env now₀ flt₀ db u.email).db R pw2).response.status = 200)
    (hjwt : ∀ tok d, env.sign ⟨none, some u.email⟩ env.JWT_SECRET 3600 now₀ = .ok tok →
      env.verify tok env.JWT_SECRET now₁ = .ok d → d.email = some u.email)
    (hold : ∀ h, env.hash pw2 10 salt = .ok h → env.compare pw1 h = .ok false)
    (hnew : ∀ h, env.hash pw2 10 salt = .ok h → env.compare pw2 h = .ok true)
    (hsign : env.sign ⟨some u.id, some u.email⟩ env.JWT_SECRET 86400 now₃ = .ok t) :
    pw1 ≠ pw2 ∧
    (login env now₂ noFault
        (resetPassword env now₁ salt flt₁
          (forgotPassword env now₀ flt₀ db u.email).db R pw2).db
        u.email pw1).response
      = ⟨401, .error "Email ou senha inválidos"⟩ ∧
    (login env now₃ noFault
        (resetPassword env now₁ salt flt₁
          (forgotPassword env now₀ flt₀ db u.email).db R pw2).db
        u.email pw2).response
      = ⟨200, .userToken "Login realizado com sucesso" u.id u.email u.fullname t⟩ ∧
    (∀ (i : Nat) (a : User), db.users[i]? = some a → a.email ≠ u.email →
      (resetPassword env now₁ salt flt₁
        (forgotPassword env now₀ flt₀ db u.email).db R pw2).db.users[i]? = some a) := by
  obtain ⟨d, email, h, hv, hm, _, hp2, hh, _, husers⟩ :=
    resetPassword_ok env now₁ salt flt₁ _ R pw2 hreset
  have hmail : email = u.email := by
    have := hjwt R d (forgotPassword_ok env now₀ flt₀ db u.email msg R hforgot) hv
    rw [hm] at this
    exact Option.some.inj this
  subst hmail
  rw [forgotPassword_users] at husers
  have hfil : (resetPassword env now₁ salt flt₁
      (forgotPassword env now₀ flt₀ db u.email).db R pw2).db.users.filter
      (fun a => a.email == u.email) = [{ u with password := h }] := by
    rw [husers, filter_email_setPassword, filter_email_unique db.users u hu huniq]
    simp [setPassword]
  refine ⟨?_, ?_, ?_, ?_⟩
  · intro heq
    have h₁ := hold h hh
    rw [heq, hnew h hh] at h₁
    simp at h₁
  · rw [login_found env now₂ noFault _ u.email pw1 _ he hp1 rfl hfil]
    simp [hold h hh]
  · rw [login_found env now₃ noFault _ u.email pw2 _ he hp2 rfl hfil]
    simp [hnew h hh, hsign]
  · intro i a hi ha
    rw [husers, List.getElem?_map, hi]
    simp [setPassword, ha]

/-- The hash the test double computes for `pw2` with entropy 8. -/
theorem Demo.hash_pw2 (h : String) (hh : Demo.env.hash "pw2" 10 8 = .ok h) :
    h = "$2a$10$8$pw2" := by
  have : (Except.ok "$2a$10$8$pw2" : Except JsError String) = .ok h := hh
  injection this with this
  exact this.symm

/-- The test verifier returns the email a reset token was signed for. -/
theorem Demo.verify_reset (tok : String) (d : Payload)
    (hs : Demo.env.sign ⟨none, some "a@x.com"⟩ Demo.env.JWT_SECRET 3600 2000 = .ok tok)
    (hv : Demo.env.verify tok Demo.env.JWT_SECRET 2100 = .ok d) :
    d.email = some "a@x.com" := by
  have htok : tok = "5600..s3cret.a@x.com" := by
    have : (Except.ok "5600..s3cret.a@x.com" : Except JsError String) = .ok tok := hs
    injection this with this
    exact this.symm
  subst htok
  have : (Except.ok ⟨none, some "a@x.com"⟩ : Except JsError Payload) = .ok d := hv
  injection this with this
  rw [← this]

/-- C7, amended, at a concrete scenario: `a@x.com`, whose password is `pw1`,
asks for a reset at clock 2000, resets to `pw2` at 2100, then logs in with each
password. -/
theorem reset_then_login_witness :
    (Demo.ann ∈ Demo.db₁.users ∧ Demo.db₁.emailUnique ∧
      Demo.env.compare "pw1" "$2a$10$8$pw2" = .ok false ∧
      Demo.env.compare "pw2" "$2a$10$8$pw2" = .ok true ∧
      (forgotPassword Demo.env 2000 noFault Demo.db₁ "a@x.com").response
        = ⟨200, .reset "Verifique seu email para recuperar a senha"
            "5600..s3cret.a@x.com"⟩ ∧
      (resetPassword Demo.env 2100 8 noFault
        (forgotPassword Demo.env 2000 noFault Demo.db₁ "a@x.com").db
        "5600..s3cret.a@x.com" "pw2").response.status = 200) ∧
    (login Demo.env 2300 noFault
        (resetPassword Demo.env 2100 8 noFault
          (forgotPassword Demo.env 2000 noFault Demo.db₁ "a@x.com").db
          "5600..s3cret.a@x.com" "pw2").db
        "a@x.com" "pw1").response
      = ⟨401, .error "Email ou senha inválidos"⟩ ∧
    (login Demo.env 2400 noFault
        (resetPassword Demo.env 2100 8 noFault
          (forgotPassword Demo.env 2000 noFault Demo.db₁ "a@x.com").db
          "5600..s3cret.a@x.com" "pw2").db
        "a@x.com" "pw2").response
      = ⟨200, .userToken "Login realizado com sucesso" 1 "a@x.com" "Ann"
          "88800.1.s3cret.a@x.com"⟩ :=
  have h := reset_then_login Demo.env 2000 2100 2300 2400 8 noFault noFault Demo.db₁
    Demo.ann "pw1" "pw2" "Verifique seu email para recuperar a senha"
    "5600..s3cret.a@x.com" "88800.1.s3cret.a@x.com"
    (by decide) (by decide) (by decide) (by decide) rfl rfl
    Demo.verify_reset
    (fun h hh => by rw [Demo.hash_pw2 h hh]; rfl)
    (fun h hh => by rw [Demo.hash_pw2 h hh]; rfl) rfl
  ⟨⟨by decide, by decide, rfl, rfl, rfl, rfl⟩, h.2.1, h.2.2.1⟩

/-! ## Store failures and the status sent (C9) -/

/-- When `register` issues its insert and that round-trip reports `e`, the
`catch` block answers with status 500 and the message of `e`. -/
theorem register_insert_fails (env : Env) (now salt : Nat) (flt : Nat → Option JsError)
    (db : Store) (email password fullname : String) (e : JsError)
    (hf : flt 1 = some e)
    (hins : ∃ c ∈ (register env now salt flt db email password fullname).calls,
      c.isInsert = true) :
    (register env now salt flt db email password fullname).response
      = ⟨500, .error e.message⟩ := by
  obtain ⟨c, hc, hins⟩ := hins
  unfold register at hc ⊢
  split at hc
  · simp at hc
  · split at hc
    · simp at hc
      subst hc
      simp [DbCall.isInsert] at hins
    · split at hc
      · simp [caught] at hc
        subst hc
        simp [DbCall.isInsert] at hins
      · rename_i hne _ hd _ h hh
        simp only [hne, if_false, hd, hh, hf, insertUser, caught]

/-- When `resetPassword` issues its update and that round-trip reports `e`, the
`catch` block answers with status 500 and the message of `e`. -/
theorem resetPassword_update_fails (env : Env) (now salt : Nat)
    (flt : Nat → Option JsError) (db : Store) (resetToken newPassword : String)
    (e : JsError) (hf : flt 0 = some e)
    (hupd : ∃ c ∈ (resetPassword env now salt flt db resetToken newPassword).calls,
      c.isUpdate = true) :
    (resetPassword env now salt flt db resetToken newPassword).response
      = ⟨500, .error e.message⟩ := by
  obtain ⟨c, hc, _⟩ := hupd
  rcases resetPassword_calls env now salt flt db resetToken newPassword with
    h | ⟨email, h, e', hf', hout⟩ | ⟨email, h, hf', _⟩
  · rw [h] at hc
    simp at hc
  · rw [hf] at hf'
    injection hf' with hf'
    subst hf'
    rw [hout]
  · rw [hf] at hf'
    simp at hf'

/-- When the lookup of `getProfile` reports `e`, the `catch` block answers with
status 500 and the message of `e`. -/
theorem getProfile_lookup_fails (flt : Nat → Option JsError) (db : Store)
    (user : Payload) (e : JsError) (hf : flt 0 = some e) :
    getProfile flt db user = ⟨⟨500, .error e.message⟩, db, [.selectUserById user.id]⟩ := by
  simp [getProfile, hf, selectSingle, caught]

/-- When the lookup of `get2FA` reports `e`, whose code is not `PGRST116`, the
`catch` block answers with status 500 and the message of `e`. -/
theorem get2FA_lookup_fails (flt : Nat → Option JsError) (db : Store)
    (user : Payload) (e : JsError) (hf : flt 0 = some e) (hcode : e.code ≠ PGRST116) :
    get2FA flt db user = ⟨⟨500, .error e.message⟩, db, [.selectTwoFactor user.id]⟩ := by
  simp [get2FA, hf, selectSingle, caught, hcode]

/-- C9, counterexample: the lookup of `login` reports a connection failure
(code `08006`, not `PGRST116`) and the response is 401, not 500; the lookup of
`refreshToken` reports it and the response is 403, not 500. -/
theorem login_store_failure_not_500 :
    Demo.down.code ≠ PGRST116 ∧
    login Demo.env 2000 (Demo.failAt 0 Demo.down) Demo.db₁ "a@x.com" "pw1"
      = ⟨⟨401, .error "Email ou senha inválidos"⟩, Demo.db₁,
          [.selectUserByEmail "a@x.com"]⟩ ∧
    refreshToken Demo.env 2000 (Demo.failAt 0 Demo.down) Demo.db₁ "rt-1"
      = ⟨⟨403, .error "Refresh token inválido"⟩, Demo.db₁,
          [.selectRefreshToken "rt-1"]⟩ :=
  ⟨by decide, rfl, rfl⟩

/-- C9, amended: let a store round-trip report an unexpected failure `e` (code
other than `PGRST116`). If it is the insert of `register`, the account update
of `resetPassword`, the lookup of `getProfile` or the lookup of `get2FA`, the
response has status 500. If it is the lookup of `login` the response has status
401, and if it is the lookup of `refreshToken` the response has status 403. -/
theorem unexpected_store_failure_status (env : Env) (flt : Nat → Option JsError)
    (db : Store) (e : JsError) (hcode : e.code ≠ PGRST116) :
    (∀ (now salt : Nat) (email password fullname : String), flt 1 = some e →
      (∃ c ∈ (register env now salt flt db email password fullname).calls,
        c.isInsert = true) →
      (register env now salt flt db email password fullname).response.status = 500) ∧
    (∀ (now salt : Nat) (resetToken newPassword : String), flt 0 = some e →
      (∃ c ∈ (resetPassword env now salt flt db resetToken newPassword).calls,
        c.isUpdate = true) →
      (resetPassword env now salt flt db resetToken newPassword).response.status = 500) ∧
    (∀ (user : Payload), flt 0 = some e →
      (getProfile flt db user).response.status = 500) ∧
    (∀ (user : Payload), flt 0 = some e →
      (get2FA flt db user).response.status = 500) ∧
    (∀ (now : Nat) (email password : String), flt 0 = some e →
      email ≠ "" → password ≠ "" →
      (login env now flt db email password).response.status = 401) ∧
    (∀ (now : Nat) (refreshTokenValue : String), flt 0 = some e →
      refreshTokenValue ≠ "" →
      (refreshToken env now flt db refreshTokenValue).response.status = 403) := by
  refine ⟨?_, ?_, ?_, ?_, ?_, ?_⟩
  · intro now salt email password fullname hf hins
    rw [register_insert_fails env now salt flt db email password fullname e hf hins]
  · intro now salt resetToken newPassword hf hupd
    rw [resetPassword_update_fails env now salt flt db resetToken newPassword e hf hupd]
  · intro user hf
    rw [getProfile_lookup_fails flt db user e hf]
  · intro user hf
    rw [get2FA_lookup_fails flt db user e hf hcode]
  · intro now email password hf he hp
    simp [login, he, hp, hf, selectSingle]
  · intro now tok hf ht
    simp [refreshToken, ht, hf, selectSingle]

/-- C9, amended, at concrete requests: a connection failure reported by the
insert of `register` and by the lookup of `getProfile`. -/
theorem unexpected_store_failure_status_witness :
    (Demo.down.code ≠ PGRST116 ∧
      (∃ c ∈ (register Demo.env 3000 4 (Demo.failAt 1 Demo.down) Demo.db₁
        "c@x.com" "pw9" "Cy").calls, c.isInsert = true)) ∧
    (register Demo.env 3000 4 (Demo.failAt 1 Demo.down) Demo.db₁
      "c@x.com" "pw9" "Cy").response.status = 500 ∧
    (getProfile (Demo.failAt 0 Demo.down) Demo.db₁ ⟨some 1, some "a@x.com"⟩).response.status
      = 500 :=
  have h := unexpected_store_failure_status Demo.env (Demo.failAt 1 Demo.down) Demo.db₁
    Demo.down (by decide)
  have h₀ := unexpected_store_failure_status Demo.env (Demo.failAt 0 Demo.down) Demo.db₁
    Demo.down (by decide)
  have hins : ∃ c ∈ (register Demo.env 3000 4 (Demo.failAt 1 Demo.down) Demo.db₁
      "c@x.com" "pw9" "Cy").calls, c.isInsert = true :=
    ⟨.insertUser "c@x.com" "$2a$10$4$pw9" "Cy" 3000, by decide, rfl⟩
  ⟨⟨by decide, hins⟩, h.1 3000 4 "c@x.com" "pw9" "Cy" rfl hins,
    h₀.2.2.1 ⟨some 1, some "a@x.com"⟩ rfl⟩

/-! ## What the `catch` block sends (C8) -/

/-- C8, counterexample: two runs of `register` on the same store and request,
whose insert fails with the same error code and two different messages, answer
with two different bodies, each carrying the message of the store error. -/
theorem register_error_body_leaks_message :
    Demo.down.code = Demo.down₂.code ∧
    (register Demo.env 3000 4 (Demo.failAt 1 Demo.down) Demo.db₁
      "c@x.com" "pw9" "Cy").response
      = ⟨500, .error "connection to db.internal:5432 refused"⟩ ∧
    (register Demo.env 3000 4 (Demo.failAt 1 Demo.down₂) Demo.db₁
      "c@x.com" "pw9" "Cy").response
      = ⟨500, .error "password authentication failed for user postgres"⟩ ∧
    (register Demo.env 3000 4 (Demo.failAt 1 Demo.down) Demo.db₁
      "c@x.com" "pw9" "Cy").response
      ≠ (register Demo.env 3000 4 (Demo.failAt 1 Demo.down₂) Demo.db₁
      "c@x.com" "pw9" "Cy").response :=
  ⟨rfl, rfl, rfl, by decide⟩

/-- C8, amended: whenever a store error is rethrown or a crypto primitive
throws, in any handler, the response has status 500 and its body is
`{ error: m }` with `m` the message of that very error. The sites, handler by
handler: `register` (hash, insert, sign), `login` (compare, sign),
`refreshToken` (sign), `forgotPassword` (sign), `resetPassword` (verify, hash,
update), `validateCredentials` (compare), `getProfile` (lookup), `get2FA`
(lookup, code other than `PGRST116`). -/
theorem failure_body_is_raw_message (env : Env) (flt : Nat → Option JsError)
    (db : Store) (e : JsError) :
    (∀ (now salt : Nat) (email password fullname : String),
      email ≠ "" → password ≠ "" → fullname ≠ "" →
      (selectSingle (flt 0) db.users (fun u => u.email == email)).data = none →
      env.hash password 10 salt = .error e →
      (register env now salt flt db email password fullname).response
        = ⟨500, .error e.message⟩) ∧
    (∀ (now salt : Nat) (email password fullname : String), flt 1 = some e →
      (∃ c ∈ (register env now salt flt db email password fullname).calls,
        c.isInsert = true) →
      (register env now salt flt db email password fullname).response
        = ⟨500, .error e.message⟩) ∧
    (∀ (now salt : Nat) (email password fullname h : String),
      email ≠ "" → password ≠ "" → fullname ≠ "" →
      (selectSingle (flt 0) db.users (fun u => u.email == email)).data = none →
      env.hash password 10 salt = .ok h → flt 1 = none →
      env.sign ⟨some (freshId db.users), some email⟩ env.JWT_SECRET 86400 now = .error e →
      (register env now salt flt db email password fullname).response
        = ⟨500, .error e.message⟩) ∧
    (∀ (now : Nat) (email password : String) (user : User),
      email ≠ "" → password ≠ "" → flt 0 = none →
      db.users.filter (fun u => u.email == email) = [user] →
      env.compare password user.password = .error e →
      (login env now flt db email password).response = ⟨500, .error e.message⟩) ∧
    (∀ (now : Nat) (email password : String) (user : User),
      email ≠ "" → password ≠ "" → flt 0 = none →
      db.users.filter (fun u => u.email == email) = [user] →
      env.compare password user.password = .ok true →
      env.sign ⟨some user.id, some user.email⟩ env.JWT_SECRET 86400 now = .error e →
      (login env now flt db email password).response = ⟨500, .error e.message⟩) ∧
    (∀ (now : Nat) (refreshTokenValue : String) (row : RefreshTokenRow),
      refreshTokenValue ≠ "" → flt 0 = none →
      db.refresh_tokens.filter (fun t => t.token == refreshTokenValue) = [row] →
      env.sign ⟨some row.user_id, some row.user_email⟩ env.JWT_SECRET 86400 now
        = .error e →
      (refreshToken env now flt db refreshTokenValue).response
        = ⟨500, .error e.message⟩) ∧
    (∀ (now : Nat) (email : String), email ≠ "" →
      env.sign ⟨none, some email⟩ env.JWT_SECRET 3600 now = .error e →
      (forgotPassword env now flt db email).response = ⟨500, .error e.message⟩) ∧
    (∀ (now salt : Nat) (resetToken newPassword : String),
      resetToken ≠ "" → newPassword ≠ "" →
      env.verify resetToken env.JWT_SECRET now = .error e →
      (resetPassword env now salt flt db resetToken newPassword).response
        = ⟨500, .error e.message⟩) ∧
    (∀ (now salt : Nat) (resetToken newPassword : String) (d : Payload) (email : String),
      resetToken ≠ "" → newPassword ≠ "" →
      env.verify resetToken env.JWT_SECRET now = .ok d →
      d.email = some email → email ≠ "" →
      env.hash newPassword 10 salt = .error e →
      (resetPassword env now salt flt db resetToken newPassword).response
        = ⟨500, .error e.message⟩) ∧
    (∀ (now salt : Nat) (resetToken newPassword : String), flt 0 = some e →
      (∃ c ∈ (resetPassword env now salt flt db resetToken newPassword).calls,
        c.isUpdate = true) →
      (resetPassword env now salt flt db resetToken newPassword).response
        = ⟨500, .error e.message⟩) ∧
    (∀ (email password : String) (user : User),
      email ≠ "" → password ≠ "" →
      (selectSingle (flt 0) db.users (fun u => u.email == email)).data = some user →
      env.compare password user.password = .error e →
      (validateCredentials env flt db email password).response
        = ⟨500, .error e.message⟩) ∧
    (∀ (user : Payload), flt 0 = some e →
      (getProfile flt db user).response = ⟨500, .error e.message⟩) ∧
    (∀ (user : Payload), flt 0 = some e → e.code ≠ PGRST116 →
      (get2FA flt db user).response = ⟨500, .error e.message⟩) := by
  refine ⟨?_, ?_, ?_, ?_, ?_, ?_, ?_, ?_, ?_, ?_, ?_, ?_, ?_⟩
  · intro now salt email password fullname he hp hf hd hh
    simp [register, he, hp, hf, hd, hh, caught]
  · intro now salt email password fullname hf hins
    exact register_insert_fails env now salt flt db email password fullname e hf hins
  · intro now salt email password fullname h he hp hf hd hh hflt hs
    simp [register, he, hp, hf, hd, hh, hflt, insertUser, hs, caught]
  · intro now email password user he hp hflt hfil hc
    rw [login_found env now flt db email password user he hp hflt hfil]
    simp [hc, caught]
  · intro now email password user he hp hflt hfil hc hs
    rw [login_found env now flt db email password user he hp hflt hfil]
    simp [hc, hs, caught]
  · intro now tok row ht hflt hfil hs
    unfold refreshToken
    rw [hflt, selectSingle_one _ _ _ hfil]
    simp [ht, hs, caught]
  · intro now email he hs
    simp [forgotPassword, he, hs, caught]
  · intro now salt resetToken newPassword ht hp hv
    rw [resetPassword_verify_throws env now salt flt db resetToken newPassword e ht hp hv]
  · intro now salt resetToken newPassword d email ht hp hv hm hne hh
    simp [resetPassword, ht, hp, hv, hm, hne, hh, caught]
  · intro now salt resetToken newPassword hf hupd
    exact resetPassword_update_fails env now salt flt db resetToken newPassword e hf hupd
  · intro email password user he hp hd hc
    simp [validateCredentials, he, hp, hd, hc, caught]
  · intro user hf
    rw [getProfile_lookup_fails flt db user e hf]
  · intro user hf hcode
    rw [get2FA_lookup_fails flt db user e hf hcode]

/-- C8, amended, at concrete requests: the verifier rejecting an expired reset
token, and the store refusing the connection during the lookup of `getProfile`. -/
theorem failure_body_is_raw_message_witness :
    (Demo.env.verify "5600..s3cret.a@x.com" Demo.env.JWT_SECRET 5600
        = .error ⟨"", "jwt expired"⟩ ∧
      Demo.failAt 0 Demo.down 0 = some Demo.down) ∧
    (resetPassword Demo.env 5600 8 noFault Demo.db₁
      "5600..s3cret.a@x.com" "pw2").response = ⟨500, .error "jwt expired"⟩ ∧
    (getProfile (Demo.failAt 0 Demo.down) Demo.db₁ ⟨some 1, some "a@x.com"⟩).response
      = ⟨500, .error "connection to db.internal:5432 refused"⟩ :=
  ⟨⟨rfl, rfl⟩,
    (failure_body_is_raw_message Demo.env noFault Demo.db₁ ⟨"", "jwt expired"⟩).2.2.2.2.2.2.2.1
      5600 8 "5600..s3cret.a@x.com" "pw2" (by decide) (by decide) rfl,
    (failure_body_is_raw_message Demo.env (Demo.failAt 0 Demo.down) Demo.db₁
      Demo.down).2.2.2.2.2.2.2.2.2.2.2.1 ⟨some 1, some "a@x.com"⟩ rfl⟩

end UnicaAuth
